import Mathlib

/-!
Verification development for `windows_service` (src/main.rs).

The program reads a list of shell command lines from a TOML configuration
file, spawns each one as a subprocess, and races each subprocess's natural
exit against a per-command cancellation channel that is fired when the
service receives its stop message.  This file is a shallow embedding of
`run`, `service_main`, the per-command supervision closures (`rx_fut`,
`process_fut`, the select of the two), the stop-message loop, and the
startup sequence, together with theorems about them.

Nondeterminism of the OS and of the scheduler (spawn success, `try_wait`
results, `kill` results, `wait` results, which side of the select resolves
first, whether a thread join succeeds) is resolved by an explicit
environment record `CmdEnv`, one per command.
-/

deriving instance DecidableEq for Except

namespace WindowsService

/-- OS-reported exit status of a subprocess (`std::process::ExitStatus`);
kept abstract as an integer, no interpretation is applied (main.rs:206). -/
abbrev ExitStatus := Int

/-- The value a supervisor thread returns (main.rs:213–224):
`Result<Option<ExitStatus>>`.  `Except.ok (some st)` is natural completion
(spec: `Completed st`), `Except.ok none` is the cancellation-side marker
(spec: `TerminatedByCancellation`), `Except.error e` is a failed wait
(spec: `WaitFailed e`).  There is no spawn-failure variant: see `runExec`. -/
abbrev SupOutcome := Except String (Option ExitStatus)

/-- Whether a supervisor outcome is the `Completed` case. -/
def is_completed : SupOutcome → Bool
  | .ok (some _) => true
  | _ => false

/-- Whether a supervisor outcome is the cancellation-side marker
(`TerminatedByCancellation`). -/
def is_terminated_by_cancellation : SupOutcome → Bool
  | .ok none => true
  | _ => false

/-- Whether a supervisor outcome is the `WaitFailed` case. -/
def is_wait_failed : SupOutcome → Bool
  | .error _ => true
  | _ => false

/-- Result of running a piece of code that may panic (Rust `unwrap`). -/
inductive RunResult (α : Type) where
  | ok (a : α)
  | panic (msg : String)
deriving DecidableEq

/-- Which side of `rx_fut.select(process_fut)` (main.rs:214) resolves first. -/
inductive Side where
  | rx
  | proc
deriving DecidableEq

/-- Environment for one command's supervisor: resolves every OS/scheduler
choice the code observes.
* `spawnRes`: result of `SharedChild::spawn` (main.rs:160);
* `recvRes`: the value `rx.recv()` returns once it returns (main.rs:168);
* `tryWaitRes`: result of `child.try_wait()` at the moment the rx side
  checks it (main.rs:174); `.ok none` means the child is still running;
* `killRes`: result of `child.kill()` (main.rs:177);
* `waitRes`: result of `child.wait()` on the process side (main.rs:197);
* `winner`: which of the two futures the select resolves first;
* `joinOk`: whether the supervisor thread's `join()` succeeds (main.rs:230). -/
structure CmdEnv where
  spawnRes : Except String Unit
  recvRes : Except String Unit
  tryWaitRes : Except String (Option ExitStatus)
  killRes : Except String Unit
  waitRes : Except String ExitStatus
  winner : Side
  joinOk : Bool
deriving DecidableEq

/-- Shell-indirection argv built for one command (main.rs:150–158):
`cmd /C <cmd>` on Windows, `sh -c <cmd>` otherwise; the command string is
passed verbatim. -/
def build_process (windows : Bool) (cmd : String) : List String :=
  if windows then ["cmd", "/C", cmd] else ["sh", "-c", cmd]

/-- What the rx-side future does: whether it issues a kill, and the value
it completes with. -/
structure RxResult where
  kills : Bool
  value : SupOutcome
deriving DecidableEq

/-- The rx-side future (main.rs:167–186).  `rx.recv()`'s result is only
logged (debug!/error!) and does not alter control flow.  The child is
killed only when `try_wait()` returned `Ok(None)` (still running); the
kill's own result is only logged.  The future's value is `Ok(None)`
unconditionally (main.rs:185). -/
def rx_fut (e : CmdEnv) : RxResult :=
  let _ := e.recvRes
  match e.tryWaitRes with
  | .ok none =>
    let _ := e.killRes
    { kills := true, value := .ok none }
  | _ => { kills := false, value := .ok none }

/-- Mapping from the process side's `child.wait()` result to the value the
process-side future completes with (main.rs:194–201): a successful wait
yields `Ok(Some st)`; a failed wait is chained with the message at
main.rs:198. -/
def proc_outcome : Except String ExitStatus → SupOutcome
  | .ok st => .ok (some st)
  | .error e => .error ("Unable to join shell process: " ++ e)

/-- The process-side future (main.rs:191–211). -/
def process_fut (e : CmdEnv) : SupOutcome :=
  proc_outcome e.waitRes

/-- The supervisor thread's value (main.rs:213–224): the value of whichever
future wins `rx_fut.select(process_fut)`; the loser is dropped. -/
def win_res (e : CmdEnv) : SupOutcome :=
  match e.winner with
  | .rx => (rx_fut e).value
  | .proc => process_fut e

/-- The per-command loop body of `run` (main.rs:146–227), iterated in index
order by `collect`.  For each command the child is spawned with
`SharedChild::spawn(&mut process).unwrap()` (main.rs:160): a spawn failure
panics the thread running `run`, so no later command is spawned and no
outcome list is ever produced.  When every spawn succeeds the collected
supervisor threads are joined and yield one `SupOutcome` per command. -/
def runExec : List CmdEnv → RunResult (List SupOutcome)
  | [] => .ok []
  | e :: es =>
    match e.spawnRes with
    | .error msg => .panic msg
    | .ok _ =>
      match runExec es with
      | .panic msg => .panic msg
      | .ok rest => .ok (win_res e :: rest)

/-- Number of outcomes a run of the per-command loop delivers: `none` when
the loop panicked and no outcome list exists. -/
def outcome_count : RunResult (List SupOutcome) → Option Nat
  | .ok outs => some outs.length
  | .panic _ => none

/-- The commands whose spawn is attempted, in order (main.rs:146–160): the
iteration stops at the first spawn failure because `unwrap` panics. -/
def spawn_attempts : List (String × CmdEnv) → List String
  | [] => []
  | (cmd, e) :: rest =>
    match e.spawnRes with
    | .error _ => [cmd]
    | .ok _ => cmd :: spawn_attempts rest

/-- `fut_threads.into_iter().map(join).collect::<Result<Vec<_>, _>>()`
(main.rs:229–231): the first failed join makes the collected result an
error. -/
def combined_res : List (Bool × SupOutcome) → Except String (List SupOutcome)
  | [] => .ok []
  | (j, o) :: rest =>
    if j then
      match combined_res rest with
      | .ok os => .ok (o :: os)
      | .error e => .error e
    else .error "Error combining threads"

/-- Pieces of the executable path the startup sequence inspects
(main.rs:65–76): `exe_path.parent()` and `exe_path.file_stem()`. -/
structure ExePath where
  parent : Option String
  file_stem : Option String
deriving DecidableEq

/-- The TOML configuration (main.rs:46–49): a list of command strings. -/
structure FileConfig where
  cmds : List String
deriving DecidableEq

/-- Environment for the sequential startup of `run` (main.rs:63–116): the
result of each fallible step, in program order. -/
structure StartupEnv where
  current_exe : Except String ExePath
  file_appender : Except String Unit
  log_config : Except String Unit
  init_log : Except String Unit
  open_config : Except String Unit
  read_config : Except String String
  parse_config : String → Except String FileConfig

/-- The startup sequence of `run` (main.rs:63–116): resolve the executable
path, its parent directory and file stem (each failure bails with the
message at main.rs:66/70/75), build and install the file appender and log
configuration, then open, read and TOML-parse the configuration file.  The
first failing step makes `run` return that error. -/
def startup (s : StartupEnv) : Except String FileConfig := do
  let exe ← s.current_exe
  match exe.parent with
  | none => .error "Unable to get parent directory of executable path"
  | some _ =>
    match exe.file_stem with
    | none => .error "Unable to get file stem of executable path"
    | some _ => do
      let _ ← s.file_appender
      let _ ← s.log_config
      let _ ← s.init_log
      let _ ← s.open_config
      let str ← s.read_config
      s.parse_config str

/-- `run` (main.rs:63–238).  After a successful startup it executes the
per-command loop; the collected join results (`combined_res`) are only
logged (main.rs:233–235) and `run` returns `Ok(())` regardless of the
individual outcomes.  A startup failure is returned as `Err` before any
command is spawned; a spawn failure propagates as a panic. -/
def run (s : StartupEnv) (envs : Nat → CmdEnv) : RunResult (Except String Unit) :=
  match startup s with
  | .error e => .ok (.error e)
  | .ok config =>
    let envList := (List.range config.cmds.length).map envs
    match runExec envList with
    | .panic msg => .panic msg
    | .ok outs =>
      let _ := combined_res ((envList.map CmdEnv.joinOk).zip outs)
      .ok (.ok ())

/-- The commands whose spawn `run` attempts (empty when startup fails,
since `run` returns before the loop at main.rs:146). -/
def run_spawns (s : StartupEnv) (envs : Nat → CmdEnv) : List String :=
  match startup s with
  | .error _ => []
  | .ok config =>
    spawn_attempts (config.cmds.zip ((List.range config.cmds.length).map envs))

/-- `service_main` (main.rs:241–258): returns exit code 0 when `run`
returns `Ok`, 1 when it returns `Err`; `none` models the thread dying of
an un-caught panic, in which case no exit code is produced at all. -/
def service_main (s : StartupEnv) (envs : Nat → CmdEnv) : Option Nat :=
  match run s envs with
  | .panic _ => none
  | .ok (.ok _) => some 0
  | .ok (.error _) => some 1

/-- What one call of `end.try_recv()` (main.rs:125) reports. -/
inductive TryRecvRes where
  | ok
  | empty
  | disconnected
deriving DecidableEq

/-- Result of the stop-message thread (main.rs:123–137) under a fuel bound:
either the loop observed `Ok` and fired every channel (with the per-channel
send results), or it is still looping. `aborted` (a process-fatal
escalation) is never produced by this code. -/
inductive FanoutOutcome where
  | fired (sends : List (Nat × Bool))
  | looping
  | aborted
deriving DecidableEq

/-- The fan-out body (main.rs:126–131): send into every channel in index
order; each send's result is only logged (debug!/error!) and a failed send
(receiver already gone) does not stop the iteration. -/
def fire_all (sendOk : Nat → Bool) (n : Nat) : List (Nat × Bool) :=
  (List.range n).map (fun i => (i, sendOk i))

/-- The stop-message loop (main.rs:123–137): poll `end.try_recv()`; on `Ok`
fire all channels and break; on `Err` (empty or disconnected alike, since
only `Ok(_)` is matched) keep looping.  `t` is the poll index, `fuel`
bounds the number of polls observed. -/
def stop_loop (endRecv : Nat → TryRecvRes) (sendOk : Nat → Bool) (n : Nat) :
    Nat → Nat → FanoutOutcome
  | _, 0 => .looping
  | t, fuel + 1 =>
    match endRecv t with
    | .ok => .fired (fire_all sendOk n)
    | _ => stop_loop endRecv sendOk n (t + 1) fuel

/-!
Interleaving model of one supervisor (main.rs:123–224), for the temporal
claims.  A state records, for one command after a successful spawn, which
events have happened: the stop message was sent (`stopFired`), the rx side's
`recv` returned (`cancelObserved`), the OS process exited (`osStatus`), the
process side's `wait` returned (`waitDone`), the rx side ran its
try-wait/kill/return block (`rxDone`, `killIssued`), and the supervisor
thread reported the select winner (`reported`).
-/

/-- Event-flag state of one supervisor after a successful spawn. -/
structure SupSt where
  stopFired : Bool
  cancelObserved : Bool
  osStatus : Option ExitStatus
  waitDone : Option (Except String ExitStatus)
  rxDone : Bool
  killIssued : Bool
  reported : Option SupOutcome
deriving DecidableEq

/-- Initial supervisor state: child spawned, nothing has happened yet. -/
def SupSt.init : SupSt :=
  { stopFired := false, cancelObserved := false, osStatus := none,
    waitDone := none, rxDone := false, killIssued := false, reported := none }

/-- One atomic step of the supervisor system, faithful to main.rs:
* `stopFire`: the stop thread observes `Ok` and sends into the channel
  (main.rs:125–127);
* `cancelObserve`: `rx.recv()` returns — only possible after the send
  (main.rs:168);
* `osExit`: the OS process exits naturally with some status;
* `waitReturn` / `waitFail`: `child.wait()` (main.rs:197) returns the
  status of the exited process, or fails;
* `rxSkip`: the rx side runs with `try_wait` showing the child already
  exited, so the kill is skipped (main.rs:174);
* `rxKill`: the rx side runs with the child still alive and kills it
  (main.rs:174–183);
* `reportProc` / `reportRx`: the select resolves with the completed side
  and the supervisor thread reports its value (main.rs:213–224). -/
inductive SupStep : SupSt → SupSt → Prop where
  | stopFire (s : SupSt) :
      s.stopFired = false →
      SupStep s { s with stopFired := true }
  | cancelObserve (s : SupSt) :
      s.stopFired = true → s.cancelObserved = false →
      SupStep s { s with cancelObserved := true }
  | osExit (s : SupSt) (st : ExitStatus) :
      s.osStatus = none →
      SupStep s { s with osStatus := some st }
  | waitReturn (s : SupSt) (st : ExitStatus) :
      s.osStatus = some st → s.waitDone = none →
      SupStep s { s with waitDone := some (.ok st) }
  | waitFail (s : SupSt) (msg : String) :
      s.waitDone = none →
      SupStep s { s with waitDone := some (.error msg) }
  | rxSkip (s : SupSt) (st : ExitStatus) :
      s.cancelObserved = true → s.rxDone = false → s.osStatus = some st →
      SupStep s { s with rxDone := true }
  | rxKill (s : SupSt) (st : ExitStatus) :
      s.cancelObserved = true → s.rxDone = false → s.osStatus = none →
      SupStep s { s with rxDone := true, killIssued := true, osStatus := some st }
  | reportProc (s : SupSt) (v : Except String ExitStatus) :
      s.waitDone = some v → s.reported = none →
      SupStep s { s with reported := some (proc_outcome v) }
  | reportRx (s : SupSt) :
      s.rxDone = true → s.reported = none →
      SupStep s { s with reported := some (.ok none) }

/-- States reachable from the initial supervisor state. -/
abbrev SupReachable (s : SupSt) : Prop :=
  Relation.ReflTransGen SupStep SupSt.init s

/-!  Concrete environments used as inputs to the theorems. -/

/-- A command that completed naturally with status 0 and whose supervisor
resolved on the process side; everything succeeds. -/
def envOkDone : CmdEnv :=
  { spawnRes := .ok (), recvRes := .ok (), tryWaitRes := .ok (some 0),
    killRes := .ok (), waitRes := .ok 0, winner := .proc, joinOk := true }

/-- Same command but the shell child could not be spawned. -/
def envSpawnFail : CmdEnv :=
  { envOkDone with spawnRes := .error "Unable to spawn shared child" }

/-- The child exited naturally (status 0), the stop message was delivered
just afterwards, and the rx-side future completed first and won the
select. -/
def envAlreadyExitedRxWins : CmdEnv :=
  { envOkDone with winner := .rx }

/-- The child is still running as far as the rx side saw, but the process
side's `wait` failed at the OS level and won the select. -/
def envWaitFail : CmdEnv :=
  { spawnRes := .ok (), recvRes := .ok (), tryWaitRes := .ok none,
    killRes := .ok (), waitRes := .error "os wait failure", winner := .proc,
    joinOk := true }

/-- A startup environment in which every step succeeds and parsing yields
the given command list. -/
def startupOk (cmds : List String) : StartupEnv :=
  { current_exe := .ok { parent := some "dir", file_stem := some "stem" },
    file_appender := .ok (), log_config := .ok (), init_log := .ok (),
    open_config := .ok (), read_config := .ok "cfg",
    parse_config := fun _ => .ok { cmds := cmds } }

/-- A startup environment in which opening the configuration file fails. -/
def startupBroken : StartupEnv :=
  { startupOk [] with open_config := .error "Unable to open config file" }

/-- A reachable supervisor state in which a kill has been issued. -/
def supKillState : SupSt :=
  { stopFired := true, cancelObserved := true, osStatus := some 0,
    waitDone := none, rxDone := true, killIssued := true, reported := none }

/-!  Helper lemmas shared by several theorems. -/

/-- When every spawn succeeds, the per-command loop yields exactly the list
of supervisor-thread values, one per command, in index order. -/
theorem runExec_all_ok (l : List CmdEnv) (h : ∀ e ∈ l, e.spawnRes = Except.ok ()) :
    runExec l = RunResult.ok (l.map win_res) := by
  induction l with
  | nil => rfl
  | cons e es ih =>
    have he : e.spawnRes = Except.ok () := h e (List.mem_cons_self e es)
    have hes := ih (fun x hx => h x (List.mem_cons_of_mem e hx))
    simp [runExec, he, hes]

/-- On a disconnected stop primitive the loop keeps polling forever: only
`Ok(_)` is matched at main.rs:125, so each poll falls through and the loop
never fires, never terminates and never escalates. -/
theorem stop_loop_disconnected (sendOk : Nat → Bool) (n : Nat) :
    ∀ fuel t, stop_loop (fun _ => TryRecvRes.disconnected) sendOk n t fuel =
      FanoutOutcome.looping := by
  intro fuel
  induction fuel with
  | zero => intro t; rfl
  | succ f ih => intro t; simpa [stop_loop] using ih (t + 1)

/-- The rx-side future completes with `Ok(None)` whatever the environment:
the recv result, the try-wait result and the kill result are all only
logged (main.rs:168–185). -/
theorem rx_fut_value (e : CmdEnv) : (rx_fut e).value = Except.ok none := by
  unfold rx_fut
  rcases h : e.tryWaitRes with m | o
  · rfl
  · cases o <;> rfl

/-!  Claim theorems. -/

/-- C1: the code contradicts the claim.  When a command's child cannot be
spawned, `SharedChild::spawn(&mut process).unwrap()` (main.rs:160) panics
the thread running `run`: no supervisor reaches Done with a SpawnFailed
outcome — the whole run dies, and commands after the failing one are never
even spawned (here command `"c"`). -/
theorem c1_spawn_failure_panics_run :
    runExec [envOkDone, envSpawnFail] =
      RunResult.panic "Unable to spawn shared child" ∧
    spawn_attempts [("a", envOkDone), ("b", envSpawnFail), ("c", envOkDone)] =
      ["a", "b"] :=
  ⟨rfl, rfl⟩

/-- C3 counterexample: with one configured command whose spawn fails, the
run panics and produces no outcome list at all, so it does not produce
exactly one Outcome (the outcome count is `none`, not `some 1`). -/
theorem c3_counterexample :
    runExec [envSpawnFail] = RunResult.panic "Unable to spawn shared child" ∧
    outcome_count (runExec [envSpawnFail]) = none ∧
    ((outcome_count (runExec [envSpawnFail]) == some 1) = false) :=
  ⟨rfl, rfl, rfl⟩

/-- C3 amended: provided every spawn succeeds, the run produces exactly N
supervisor outcomes, one per command index, regardless of stop-signal
timing (the per-command environments, including each select winner, are
arbitrary). -/
theorem c3_exactly_n_outcomes (envs : List CmdEnv)
    (h : ∀ e ∈ envs, e.spawnRes = Except.ok ()) :
    runExec envs = RunResult.ok (envs.map win_res) ∧
    (envs.map win_res).length = envs.length :=
  ⟨runExec_all_ok envs h, by simp⟩

/-- C3 witness: two commands, one finishing normally and one with a failed
wait; both spawns succeed and exactly two outcomes are produced. -/
theorem c3_witness :
    runExec [envOkDone, envWaitFail] =
      RunResult.ok ([envOkDone, envWaitFail].map win_res) ∧
    ([envOkDone, envWaitFail].map win_res).length = 2 :=
  c3_exactly_n_outcomes [envOkDone, envWaitFail] (by decide)

/-- C5: on the cancellation side the supervisor first checks `try_wait`
(main.rs:174); if the child has already exited the kill is skipped, the
termination request is never turned into an error (the rx future's value
is `Ok(None)` regardless of the kill result), and when the race was
already resolved on the process side the rx side's run leaves that
outcome unchanged. -/
theorem c5_terminate_already_exited (e : CmdEnv) (st : ExitStatus)
    (h : e.tryWaitRes = Except.ok (some st)) :
    (rx_fut e).kills = false ∧
    (rx_fut e).value = Except.ok none ∧
    (e.winner = Side.proc → win_res e = process_fut e) := by
  refine ⟨?_, rx_fut_value e, ?_⟩
  · simp [rx_fut, h]
  · intro hw
    simp [win_res, hw]

/-- C5 witness: a concrete supervisor whose child already exited with
status 0 when the cancellation side ran. -/
theorem c5_witness :
    envOkDone.tryWaitRes = Except.ok (some 0) ∧
    (rx_fut envOkDone).kills = false ∧
    (rx_fut envOkDone).value = Except.ok none ∧
    win_res envOkDone = process_fut envOkDone :=
  ⟨rfl, (c5_terminate_already_exited envOkDone 0 rfl).1,
    (c5_terminate_already_exited envOkDone 0 rfl).2.1,
    (c5_terminate_already_exited envOkDone 0 rfl).2.2 rfl⟩

/-- C2 counterexample: a run with one command whose wait failed (a
WaitFailed outcome) still exits with code 0 — `run` returns `Ok(())` at
main.rs:237 no matter what the joined outcomes were, so the claimed
non-zero exit for WaitFailed does not happen. -/
theorem c2_counterexample :
    win_res envWaitFail =
      Except.error "Unable to join shell process: os wait failure" ∧
    is_wait_failed (win_res envWaitFail) = true ∧
    service_main (startupOk ["c"]) (fun _ => envWaitFail) = some 0 :=
  ⟨rfl, rfl, rfl⟩

/-- C2 amended: the exit disposition ignores the outcomes.  `service_main`
returns 1 exactly when startup failed, and 0 whenever startup succeeded
and every spawn succeeded — whatever the per-command outcomes (WaitFailed
included) and whatever the join results; the collected join result is only
logged (main.rs:233–235).  When a spawn fails no exit code is produced at
all (the run panics). -/
theorem c2_exit_code (s : StartupEnv) (envs : Nat → CmdEnv) :
    (∀ msg, startup s = Except.error msg → service_main s envs = some 1) ∧
    (∀ cfg, startup s = Except.ok cfg →
      (∀ i, (envs i).spawnRes = Except.ok ()) →
      service_main s envs = some 0) := by
  constructor
  · intro msg h
    simp [service_main, run, h]
  · intro cfg h hall
    have hx : runExec ((List.range cfg.cmds.length).map envs) =
        RunResult.ok (((List.range cfg.cmds.length).map envs).map win_res) := by
      refine runExec_all_ok _ ?_
      intro e he
      obtain ⟨i, _, rfl⟩ := List.mem_map.mp he
      exact hall i
    simp [service_main, run, h, hx]

/-- C2 witness: the amended statement at the concrete run of the
counterexample — startup succeeds, the single outcome is WaitFailed, and
the exit code is 0. -/
theorem c2_witness :
    service_main (startupOk ["c"]) (fun _ => envWaitFail) = some 0 :=
  (c2_exit_code (startupOk ["c"]) (fun _ => envWaitFail)).2
    { cmds := ["c"] } rfl (fun _ => rfl)

/-- C4 counterexample: the child has already exited naturally (both
`try_wait` and `wait` report status 0) and the stop message arrives; the
rx-side future, which completes with `Ok(None)` unconditionally
(main.rs:185), wins the select, so the reported outcome is the
TerminatedByCancellation marker and not Completed — even though no kill
was issued. -/
theorem c4_counterexample :
    envAlreadyExitedRxWins.tryWaitRes = Except.ok (some 0) ∧
    envAlreadyExitedRxWins.waitRes = Except.ok 0 ∧
    (rx_fut envAlreadyExitedRxWins).kills = false ∧
    is_terminated_by_cancellation (win_res envAlreadyExitedRxWins) = true ∧
    is_completed (win_res envAlreadyExitedRxWins) = false :=
  ⟨rfl, rfl, rfl, rfl, rfl⟩

/-- C4 amended: if the child has already exited naturally (status `st`),
no kill is issued, and the reported outcome is `Completed st` exactly when
the completion side wins the select; when the cancellation side wins first
the outcome is reported as the cancellation marker `Ok(None)` even though
the process completed naturally. -/
theorem c4_already_exited (e : CmdEnv) (st : ExitStatus)
    (h1 : e.tryWaitRes = Except.ok (some st))
    (h2 : e.waitRes = Except.ok st) :
    (rx_fut e).kills = false ∧
    (e.winner = Side.proc → win_res e = Except.ok (some st)) ∧
    (e.winner = Side.rx → win_res e = Except.ok none) := by
  refine ⟨?_, ?_, ?_⟩
  · simp [rx_fut, h1]
  · intro hw
    simp [win_res, hw, process_fut, proc_outcome, h2]
  · intro hw
    simp [win_res, hw, rx_fut_value]

/-- C4 witness: the concrete already-exited environment in which the
completion side wins: the outcome is Completed 0 and no kill happens. -/
theorem c4_witness :
    (rx_fut envOkDone).kills = false ∧
    win_res envOkDone = Except.ok (some 0) :=
  ⟨(c4_already_exited envOkDone 0 rfl rfl).1,
    (c4_already_exited envOkDone 0 rfl rfl).2.1 rfl⟩

/-- C6: within one supervisor, in every reachable state, a kill has been
issued only if the cancellation was observed (the kill sits after
`rx.recv()` inside the rx closure, main.rs:168–183, and `recv` returns
only after the stop thread's send), and an outcome has been reported only
if the completion-vs-cancellation race is resolved (one of the two raced
futures has completed; the supervisor thread blocks on the select at
main.rs:214 before reporting). -/
theorem c6_supervisor_ordering (s : SupSt) (h : SupReachable s) :
    (s.killIssued = true → s.cancelObserved = true) ∧
    (s.reported.isSome = true → (s.waitDone.isSome = true ∨ s.rxDone = true)) := by
  induction h with
  | refl => exact ⟨fun hk => Bool.noConfusion hk, fun hr => Bool.noConfusion hr⟩
  | tail hab hstep ih =>
    cases hstep with
    | stopFire h1 => exact ⟨ih.1, ih.2⟩
    | cancelObserve h1 h2 => exact ⟨fun _ => rfl, ih.2⟩
    | osExit st h1 => exact ⟨ih.1, ih.2⟩
    | waitReturn st h1 h2 => exact ⟨ih.1, fun _ => Or.inl rfl⟩
    | waitFail msg h1 => exact ⟨ih.1, fun _ => Or.inl rfl⟩
    | rxSkip st h1 h2 h3 => exact ⟨ih.1, fun _ => Or.inr rfl⟩
    | rxKill st h1 h2 h3 => exact ⟨fun _ => h1, fun _ => Or.inr rfl⟩
    | reportProc v h1 h2 =>
      exact ⟨ih.1, fun _ => Or.inl (by simp [h1])⟩
    | reportRx h1 h2 => exact ⟨ih.1, fun _ => Or.inr h1⟩

/-- C6 witness: a concrete reachable state in which a kill has actually
been issued (stop fired, cancellation observed, rx side killed the child);
the ordering properties hold there. -/
theorem c6_witness :
    (supKillState.killIssued = true → supKillState.cancelObserved = true) ∧
    (supKillState.reported.isSome = true →
      (supKillState.waitDone.isSome = true ∨ supKillState.rxDone = true)) :=
  c6_supervisor_ordering supKillState
    (Relation.ReflTransGen.tail
      (Relation.ReflTransGen.tail
        (Relation.ReflTransGen.tail Relation.ReflTransGen.refl
          (SupStep.stopFire SupSt.init rfl))
        (SupStep.cancelObserve { SupSt.init with stopFired := true } rfl rfl))
      (SupStep.rxKill
        { SupSt.init with stopFired := true, cancelObserved := true } 0 rfl rfl rfl))

/-- C7 counterexample: with the stop primitive disconnected (the underlying
wait terminated unexpectedly), the stop thread never aborts the process
and never fires the channels — `if let Ok(_) = end.try_recv()`
(main.rs:125) silently ignores the disconnection and the loop spins
forever, whereas the claim requires a logged, process-fatal escalation. -/
theorem c7_counterexample :
    stop_loop (fun _ => TryRecvRes.disconnected) (fun _ => true) 1 0 100 =
      FanoutOutcome.looping ∧
    ((FanoutOutcome.looping == FanoutOutcome.aborted) = false) ∧
    ((FanoutOutcome.looping == FanoutOutcome.fired (fire_all (fun _ => true) 1)) = false) :=
  ⟨stop_loop_disconnected (fun _ => true) 1 100 0, rfl, rfl⟩

/-- C7 amended: if the wait on the stop primitive terminates unexpectedly
(the channel is disconnected), the stop thread busy-loops forever: it
never fires any cancellation channel, never terminates, and the process is
not aborted (and nothing is logged, since the loop body does nothing on
`Err`). -/
theorem c7_disconnected_spins (sendOk : Nat → Bool) (n t fuel : Nat) :
    stop_loop (fun _ => TryRecvRes.disconnected) sendOk n t fuel =
      FanoutOutcome.looping :=
  stop_loop_disconnected sendOk n fuel t

/-- C8: a configured command list of length zero is a valid run: the
per-command loop is empty, the join of zero supervisors succeeds
immediately, no spawn is attempted, and the process reports success
(exit code 0). -/
theorem c8_zero_commands (s : StartupEnv) (envs : Nat → CmdEnv)
    (h : startup s = Except.ok { cmds := [] }) :
    run s envs = RunResult.ok (Except.ok ()) ∧
    service_main s envs = some 0 ∧
    run_spawns s envs = [] := by
  refine ⟨?_, ?_, ?_⟩
  · simp [run, h, runExec]
  · simp [service_main, run, h, runExec]
  · simp [run_spawns, h, spawn_attempts]

/-- C8 witness: the all-succeeding startup environment whose configuration
parses to zero commands. -/
theorem c8_witness :
    startup (startupOk []) = Except.ok { cmds := [] } ∧
    service_main (startupOk []) (fun _ => envOkDone) = some 0 :=
  ⟨rfl, (c8_zero_commands (startupOk []) (fun _ => envOkDone) rfl).2.1⟩

/-- C9: when the stop message is observed, the fan-out fires every one of
the N channels in index order 0..N-1 (main.rs:126–131); a send whose
receiver is already gone (its supervisor finished) merely yields a logged
`Err` and neither stops the iteration nor changes the set of indices
fired, and a supervisor whose race already resolved on the process side
keeps its outcome whatever the rx side later does. -/
theorem c9_fire_in_order (endRecv : Nat → TryRecvRes) (sendOk : Nat → Bool)
    (n t fuel : Nat) (h : endRecv t = TryRecvRes.ok) :
    stop_loop endRecv sendOk n t (fuel + 1) =
      FanoutOutcome.fired (fire_all sendOk n) ∧
    (fire_all sendOk n).map Prod.fst = List.range n ∧
    (fire_all sendOk n).length = n ∧
    (∀ e : CmdEnv, e.winner = Side.proc → win_res e = process_fut e) := by
  refine ⟨?_, ?_, ?_, ?_⟩
  · simp [stop_loop, h]
  · simp only [fire_all, List.map_map]
    exact List.map_id (List.range n)
  · simp [fire_all]
  · intro e hw
    simp [win_res, hw]

/-- C9 witness: two channels, the second one's supervisor already gone (its
send fails): both sends are attempted, in order. -/
theorem c9_witness :
    stop_loop (fun _ => TryRecvRes.ok) (fun i => i == 0) 2 0 1 =
      FanoutOutcome.fired [(0, true), (1, false)] ∧
    (fire_all (fun i => i == 0) 2).map Prod.fst = List.range 2 :=
  ⟨by
    have h := (c9_fire_in_order (fun _ => TryRecvRes.ok) (fun i => i == 0) 2 0 0 rfl).1
    simpa [fire_all] using h,
    (c9_fire_in_order (fun _ => TryRecvRes.ok) (fun i => i == 0) 2 0 0 rfl).2.1⟩

/-- C10: when any startup step fails — resolving the executable path, its
parent or file stem, building or installing the log appender and log
configuration, or opening, reading or parsing the TOML configuration —
`run` returns that error before the spawning loop, `service_main` exits
with code 1, and no subprocess spawn is ever attempted. -/
theorem c10_startup_failure (s : StartupEnv) (envs : Nat → CmdEnv)
    (msg : String) (h : startup s = Except.error msg) :
    service_main s envs = some 1 ∧ run_spawns s envs = [] := by
  constructor
  · simp [service_main, run, h]
  · simp [run_spawns, h]

/-- C10 witness: a startup environment whose configuration file cannot be
opened: exit code 1 and no spawn attempted. -/
theorem c10_witness :
    startup startupBroken = Except.error "Unable to open config file" ∧
    service_main startupBroken (fun _ => envOkDone) = some 1 ∧
    run_spawns startupBroken (fun _ => envOkDone) = [] :=
  ⟨rfl, (c10_startup_failure startupBroken (fun _ => envOkDone) _ rfl).1,
    (c10_startup_failure startupBroken (fun _ => envOkDone) _ rfl).2⟩

end WindowsService
